import Mathlib

set_option maxRecDepth 100000

/-!
Verification of the NCM dump core (`src/ncm.rs` of ncmdump-wasm).

Bytes are modelled as `Nat` values kept below 256; byte buffers are
`List Nat`.  Rust functions returning `Result<T, String>` are modelled with
the `PResult` type below, which also has an explicit `panicked` constructor
for executions that abort via an out-of-range slice index, an out-of-range
array index, or an explicit `panic!`.  Release-mode wrapping `u8` arithmetic
is modelled with `% 256`; `& 0xff` masks are kept where the source writes
them.  External crates that the source delegates to are handled as follows:
the AES-128-ECB/PKCS7 block cipher (`aes` + `block_modes`) and base64
decoding (`base64`) are implemented concretely below, faithful to those
standard algorithms; JSON (`serde_json`, except for its fixed serialization
of `Option::None` as `null`) and the FLAC/ID3 tag writers (`metaflac`,
`id3`) are abstracted as parameters collected in `ExternalFns`, since no
claim depends on their internals.
-/

/-- Result of running a piece of the decoder: a value, a `Result::Err`
carried as a message string, or an aborted (panicking) execution. -/
inductive PResult (α : Type) where
  | ok : α → PResult α
  | err : String → PResult α
  | panicked : PResult α
deriving DecidableEq

instance {ε α : Type} [DecidableEq ε] [DecidableEq α] : DecidableEq (Except ε α) :=
  fun a b =>
    match a, b with
    | .ok x, .ok y => if h : x = y then .isTrue (by rw [h]) else .isFalse (by simp [h])
    | .error x, .error y => if h : x = y then .isTrue (by rw [h]) else .isFalse (by simp [h])
    | .ok _, .error _ => .isFalse (by simp)
    | .error _, .ok _ => .isFalse (by simp)

/-- The `Cursor<Vec<u8>>` held by `NcmDecoder`: the full input buffer plus a
read position. -/
structure Reader where
  data : List Nat
  pos : Nat
deriving DecidableEq

/-- `CORE_KEY` of `ncm.rs` (the fixed AES key for the key blob). -/
def CORE_KEY : List Nat :=
  [0x68, 0x7A, 0x48, 0x52, 0x41, 0x6D, 0x73, 0x6F, 0x35, 0x6B, 0x49, 0x6E, 0x62, 0x61, 0x78, 0x57]

/-- `MODIFY_KEY` of `ncm.rs` (the fixed AES key for the metadata blob). -/
def MODIFY_KEY : List Nat :=
  [0x23, 0x31, 0x34, 0x6C, 0x6A, 0x6B, 0x5F, 0x21, 0x5C, 0x5D, 0x26, 0x30, 0x55, 0x3C, 0x27, 0x28]

/-- `MAGIC_HEADER = *b"CTENFDAM"` of `ncm.rs`. -/
def MAGIC_HEADER : List Nat := [0x43, 0x54, 0x45, 0x4E, 0x46, 0x44, 0x41, 0x4D]

/-! ## AES-128-ECB with PKCS7 unpadding

Modelled from the spec: `ncm.rs` calls `Ecb::<Aes128, Pkcs7>::new_var(key,
..).decrypt(data)` from the external `aes`/`block_modes` crates; the spec
(§4.2) fixes this to AES-128-ECB decryption with PKCS7 unpadding.  The
implementation below is AES-128 per FIPS-197 (verified against the FIPS-197
appendix C.1 vector further down). -/

/-- The AES S-box (needed by the key schedule). -/
def aes_sbox : List Nat :=
  [99, 124, 119, 123, 242, 107, 111, 197, 48, 1, 103, 43, 254, 215, 171, 118, 202, 130, 201, 125,
   250, 89, 71, 240, 173, 212, 162, 175, 156, 164, 114, 192, 183, 253, 147, 38, 54, 63, 247, 204,
   52, 165, 229, 241, 113, 216, 49, 21, 4, 199, 35, 195, 24, 150, 5, 154, 7, 18, 128, 226, 235, 39,
   178, 117, 9, 131, 44, 26, 27, 110, 90, 160, 82, 59, 214, 179, 41, 227, 47, 132, 83, 209, 0, 237,
   32, 252, 177, 91, 106, 203, 190, 57, 74, 76, 88, 207, 208, 239, 170, 251, 67, 77, 51, 133, 69,
   249, 2, 127, 80, 60, 159, 168, 81, 163, 64, 143, 146, 157, 56, 245, 188, 182, 218, 33, 16, 255,
   243, 210, 205, 12, 19, 236, 95, 151, 68, 23, 196, 167, 126, 61, 100, 93, 25, 115, 96, 129, 79,
   220, 34, 42, 144, 136, 70, 238, 184, 20, 222, 94, 11, 219, 224, 50, 58, 10, 73, 6, 36, 92, 194,
   211, 172, 98, 145, 149, 228, 121, 231, 200, 55, 109, 141, 213, 78, 169, 108, 86, 244, 234, 101,
   122, 174, 8, 186, 120, 37, 46, 28, 166, 180, 198, 232, 221, 116, 31, 75, 189, 139, 138, 112, 62,
   181, 102, 72, 3, 246, 14, 97, 53, 87, 185, 134, 193, 29, 158, 225, 248, 152, 17, 105, 217, 142,
   148, 155, 30, 135, 233, 206, 85, 40, 223, 140, 161, 137, 13, 191, 230, 66, 104, 65, 153, 45, 15,
   176, 84, 187, 22]

/-- The AES inverse S-box. -/
def aes_inv_sbox : List Nat :=
  [82, 9, 106, 213, 48, 54, 165, 56, 191, 64, 163, 158, 129, 243, 215, 251, 124, 227, 57, 130, 155,
   47, 255, 135, 52, 142, 67, 68, 196, 222, 233, 203, 84, 123, 148, 50, 166, 194, 35, 61, 238, 76,
   149, 11, 66, 250, 195, 78, 8, 46, 161, 102, 40, 217, 36, 178, 118, 91, 162, 73, 109, 139, 209,
   37, 114, 248, 246, 100, 134, 104, 152, 22, 212, 164, 92, 204, 93, 101, 182, 146, 108, 112, 72,
   80, 253, 237, 185, 218, 94, 21, 70, 87, 167, 141, 157, 132, 144, 216, 171, 0, 140, 188, 211, 10,
   247, 228, 88, 5, 184, 179, 69, 6, 208, 44, 30, 143, 202, 63, 15, 2, 193, 175, 189, 3, 1, 19,
   138, 107, 58, 145, 17, 65, 79, 103, 220, 234, 151, 242, 207, 206, 240, 180, 230, 115, 150, 172,
   116, 34, 231, 173, 53, 133, 226, 249, 55, 232, 28, 117, 223, 110, 71, 241, 26, 113, 29, 41, 197,
   137, 111, 183, 98, 14, 170, 24, 190, 27, 252, 86, 62, 75, 198, 210, 121, 32, 154, 219, 192, 254,
   120, 205, 90, 244, 31, 221, 168, 51, 136, 7, 199, 49, 177, 18, 16, 89, 39, 128, 236, 95, 96, 81,
   127, 169, 25, 181, 74, 13, 45, 229, 122, 159, 147, 201, 156, 239, 160, 224, 59, 77, 174, 42,
   245, 176, 200, 235, 187, 60, 131, 83, 153, 97, 23, 43, 4, 126, 186, 119, 214, 38, 225, 105, 20,
   99, 85, 33, 12, 125]

/-- The AES round constants. -/
def aes_rcon : List Nat := [1, 2, 4, 8, 0x10, 0x20, 0x40, 0x80, 0x1b, 0x36]

/-- Multiplication by `x` in GF(2^8) with the AES reduction polynomial. -/
def xtime (b : Nat) : Nat := if b < 0x80 then 2 * b else (2 * b - 0x100) ^^^ 0x1b

/-- Multiplication by 9 in GF(2^8). -/
def gmul9 (b : Nat) : Nat := xtime (xtime (xtime b)) ^^^ b

/-- Multiplication by 11 in GF(2^8). -/
def gmul11 (b : Nat) : Nat := xtime (xtime (xtime b)) ^^^ xtime b ^^^ b

/-- Multiplication by 13 in GF(2^8). -/
def gmul13 (b : Nat) : Nat := xtime (xtime (xtime b)) ^^^ xtime (xtime b) ^^^ b

/-- Multiplication by 14 in GF(2^8). -/
def gmul14 (b : Nat) : Nat := xtime (xtime (xtime b)) ^^^ xtime (xtime b) ^^^ xtime b

/-- XOR of two equal-length byte words. -/
def xor_bytes (a b : List Nat) : List Nat := List.zipWith (· ^^^ ·) a b

/-- `SubWord` of the AES key schedule. -/
def aes_sub_word (w : List Nat) : List Nat := w.map (fun b => aes_sbox.getD b 0)

/-- `RotWord` of the AES key schedule. -/
def aes_rot_word (w : List Nat) : List Nat := w.drop 1 ++ w.take 1

/-- One step of the AES-128 key expansion, run `fuel` times; `ws` is the list
of 4-byte words produced so far. -/
def aes_expand_go : Nat → List (List Nat) → List (List Nat)
  | 0, ws => ws
  | n+1, ws =>
    let i := ws.length
    let prev := ws.getLastD []
    let w4 := ws.getD (i - 4) []
    let temp :=
      if i % 4 == 0 then
        xor_bytes (aes_sub_word (aes_rot_word prev)) [aes_rcon.getD (i / 4 - 1) 0, 0, 0, 0]
      else prev
    aes_expand_go n (ws ++ [xor_bytes w4 temp])

/-- AES-128 key expansion: 44 4-byte words from a 16-byte key. -/
def aes_key_expansion (key : List Nat) : List (List Nat) :=
  aes_expand_go 40 [key.take 4, (key.drop 4).take 4, (key.drop 8).take 4, (key.drop 12).take 4]

/-- Round key `r` as a flat 16-byte list (column-major, as the flat state). -/
def aes_round_key (ws : List (List Nat)) (r : Nat) : List Nat :=
  ((ws.drop (4 * r)).take 4).flatten

/-- `AddRoundKey`. -/
def aes_add_round_key (st rk : List Nat) : List Nat := xor_bytes st rk

/-- `InvSubBytes` on the flat 16-byte state. -/
def aes_inv_sub_bytes (st : List Nat) : List Nat := st.map (fun b => aes_inv_sbox.getD b 0)

/-- `InvShiftRows` on the flat 16-byte state (byte `r + 4c` is row `r`,
column `c`; row `r` is rotated right by `r`). -/
def aes_inv_shift_rows (s : List Nat) : List Nat :=
  [s.getD 0 0, s.getD 13 0, s.getD 10 0, s.getD 7 0,
   s.getD 4 0, s.getD 1 0, s.getD 14 0, s.getD 11 0,
   s.getD 8 0, s.getD 5 0, s.getD 2 0, s.getD 15 0,
   s.getD 12 0, s.getD 9 0, s.getD 6 0, s.getD 3 0]

/-- `InvMixColumns` on one 4-byte column. -/
def aes_inv_mix_column (c : List Nat) : List Nat :=
  match c with
  | [a, b, d, e] =>
    [gmul14 a ^^^ gmul11 b ^^^ gmul13 d ^^^ gmul9 e,
     gmul9 a ^^^ gmul14 b ^^^ gmul11 d ^^^ gmul13 e,
     gmul13 a ^^^ gmul9 b ^^^ gmul14 d ^^^ gmul11 e,
     gmul11 a ^^^ gmul13 b ^^^ gmul9 d ^^^ gmul14 e]
  | _ => c

/-- `InvMixColumns` on the flat 16-byte state. -/
def aes_inv_mix_columns (st : List Nat) : List Nat :=
  aes_inv_mix_column (st.take 4) ++ aes_inv_mix_column ((st.drop 4).take 4) ++
    aes_inv_mix_column ((st.drop 8).take 4) ++ aes_inv_mix_column (st.drop 12)

/-- Rounds `n` down to `1` of the AES-128 inverse cipher. -/
def aes_inv_rounds : Nat → List (List Nat) → List Nat → List Nat
  | 0, _, st => st
  | n+1, ws, st =>
    aes_inv_rounds n ws
      (aes_inv_mix_columns
        (aes_add_round_key (aes_inv_sub_bytes (aes_inv_shift_rows st)) (aes_round_key ws (n+1))))

/-- The AES-128 inverse cipher on one 16-byte block. -/
def aes_decrypt_block (ws : List (List Nat)) (block : List Nat) : List Nat :=
  let st := aes_add_round_key block (aes_round_key ws 10)
  let st := aes_inv_rounds 9 ws st
  aes_add_round_key (aes_inv_sub_bytes (aes_inv_shift_rows st)) (aes_round_key ws 0)

/-- ECB decryption of consecutive 16-byte blocks (`fuel` bounds the number of
blocks; call sites pass the data length). -/
def aes_decrypt_blocks (ws : List (List Nat)) : Nat → List Nat → List Nat
  | 0, _ => []
  | fuel+1, d =>
    if d.isEmpty then [] else aes_decrypt_block ws (d.take 16) ++ aes_decrypt_blocks ws fuel (d.drop 16)

/-- PKCS7 unpadding as performed by `block_modes`: the last byte names the
padding length, which must be in `1..=16` and repeated that many times. -/
def pkcs7_unpad (d : List Nat) : Except String (List Nat) :=
  let k := d.getLastD 0
  if k = 0 ∨ 16 < k ∨ d.length < k then .error "BlockModeError"
  else if d.drop (d.length - k) = List.replicate k k then .ok (d.take (d.length - k))
  else .error "BlockModeError"

/-- `aes_decrypt` of `ncm.rs` (lines 200-203): one-shot AES-128-ECB/PKCS7
decryption of a small blob.  `new_var` fails on a key that is not 16 bytes;
`decrypt` fails on an empty or non-block-multiple input and on bad padding. -/
def aes_decrypt (data key : List Nat) : Except String (List Nat) :=
  if key.length ≠ 16 then .error "InvalidKeyLength"
  else if data.length = 0 ∨ data.length % 16 ≠ 0 then .error "BlockModeError"
  else pkcs7_unpad (aes_decrypt_blocks (aes_key_expansion key) data.length data)

/-! ## Base64 decoding

Modelled from the spec: `read_metadata` calls `base64::decode` (standard
alphabet, mandatory padding) from the external `base64` crate. -/

/-- Value of one base64 alphabet byte, `none` for a non-alphabet byte. -/
def b64_val (c : Nat) : Option Nat :=
  if 65 ≤ c ∧ c ≤ 90 then some (c - 65)
  else if 97 ≤ c ∧ c ≤ 122 then some (c - 71)
  else if 48 ≤ c ∧ c ≤ 57 then some (c + 4)
  else if c = 43 then some 62
  else if c = 47 then some 63
  else none

/-- Base64 decoding of 4-byte groups; `=` (byte 61) is only allowed as final
padding. -/
def base64_decode : List Nat → Except String (List Nat)
  | [] => .ok []
  | a :: b :: c :: d :: rest =>
    match b64_val a, b64_val b with
    | some va, some vb =>
      if c = 61 then
        if d = 61 ∧ rest = [] then .ok [va * 4 + vb / 16] else .error "InvalidByte"
      else
        match b64_val c with
        | some vc =>
          if d = 61 then
            if rest = [] then .ok [va * 4 + vb / 16, vb % 16 * 16 + vc / 4] else .error "InvalidByte"
          else
            match b64_val d with
            | some vd =>
              match base64_decode rest with
              | .ok tail => .ok ((va * 4 + vb / 16) :: (vb % 16 * 16 + vc / 4) :: (vc % 4 * 64 + vd) :: tail)
              | .error e => .error e
            | none => .error "InvalidByte"
        | none => .error "InvalidByte"
    | _, _ => .error "InvalidByte"
  | _ => .error "InvalidLength"

/-! ## Data model of `ncm.rs` -/

/-- `enum AudioFileType { Mp3, Flac }`. -/
inductive AudioFileType where
  | Mp3 : AudioFileType
  | Flac : AudioFileType
deriving DecidableEq

/-- `enum ImageFileType { Jpeg, Png, Gif }`. -/
inductive ImageFileType where
  | Jpeg : ImageFileType
  | Png : ImageFileType
  | Gif : ImageFileType
deriving DecidableEq

/-- `struct Audio` of `ncm.rs`. -/
structure Audio where
  format : AudioFileType
  data : List Nat
deriving DecidableEq

/-- `struct Image` of `ncm.rs`. -/
structure Image where
  format : ImageFileType
  data : List Nat
deriving DecidableEq

/-- `struct Metadata` of `ncm.rs` (the parsed JSON object). -/
structure Metadata where
  format : String
  music_id : Nat
  music_name : String
  artist : List (String × Nat)
  album : String
  album_id : Nat
  album_pic_doc_id : Nat
  album_pic : String
  mv_id : Nat
  flag : Nat
  bitrate : Nat
  duration : Nat
  trans_names : List String
deriving DecidableEq

/-- The external library functions the decoder delegates to, abstracted:
`jsonParse` is `String::from_utf8_lossy` + `serde_json::from_str::<Metadata>`
applied to the raw bytes; `jsonSer` is `serde_json::to_string` on a present
`Metadata`; `flacTagger`/`mp3Tagger` are the whole tag-rewriting interaction
with `metaflac`/`id3` performed by `add_flac_metadata`/`add_mp3_metadata`
when at least one of image and metadata is present, returning the rewritten
audio bytes. -/
structure ExternalFns where
  jsonParse : List Nat → Except String Metadata
  jsonSer : Metadata → Except String String
  flacTagger : Audio → Option Image → Option Metadata → Except String (List Nat)
  mp3Tagger : Audio → Option Image → Option Metadata → Except String (List Nat)

/-- `struct DumpOutput` of `ncm.rs`. -/
structure DumpOutput where
  data : List Nat
  metadata : String
  extension : String
  result : String
deriving DecidableEq

/-- `DumpOutput::new(data, metadata, result, extension)` (note the argument
order differs from the field order). -/
def DumpOutput.new (data : List Nat) (metadata result extension : String) : DumpOutput :=
  ⟨data, metadata, extension, result⟩

/-! ## Cursor operations -/

/-- `Read::read` on a `Cursor`: copies `min(n, remaining)` bytes and advances
the position by the amount read. -/
def readBytes (n : Nat) (r : Reader) : List Nat × Reader :=
  let bytes := (r.data.drop r.pos).take n
  (bytes, ⟨r.data, r.pos + bytes.length⟩)

/-- `Read::read_exact` on a `Cursor`: fails with an `UnexpectedEof` error when
fewer than `n` bytes remain. -/
def read_exact (n : Nat) (r : Reader) : PResult (List Nat × Reader) :=
  let br := readBytes n r
  if br.1.length = n then .ok br else .err "failed to fill whole buffer"

/-- `read_le_u32` of the `ReaderExt` trait in `ncm.rs` (lines 386-392): four
bytes, little-endian. -/
def read_le_u32 (r : Reader) : PResult (Nat × Reader) :=
  match read_exact 4 r with
  | .ok (b, r') => .ok (b.getD 0 0 + 256 * b.getD 1 0 + 65536 * b.getD 2 0 + 16777216 * b.getD 3 0, r')
  | .err e => .err e
  | .panicked => .panicked

/-- `NcmDecoder::skip` (lines 166-169): `Seek::seek(SeekFrom::Current(n))`,
which errors on a negative resulting position and may move past the end. -/
def skip (n : Int) (r : Reader) : PResult (Nat × Reader) :=
  let p : Int := (r.pos : Int) + n
  if p < 0 then .err "invalid seek to a negative or overflowing position"
  else .ok (p.toNat, ⟨r.data, p.toNat⟩)

/-! ## Decoder stages -/

/-- `NcmDecoder::check_format` (lines 79-87): reads up to 8 bytes into a
zero-initialized 8-byte buffer and requires exactly 8 bytes equal to
`MAGIC_HEADER`. -/
def check_format (r : Reader) : PResult (Unit × Reader) :=
  let br := readBytes 8 r
  let buf := br.1 ++ List.replicate (8 - br.1.length) 0
  if br.1.length ≠ 8 ∨ buf ≠ MAGIC_HEADER then .err "This file is not in ncm format"
  else .ok ((), br.2)

/-- `NcmDecoder::read_aes_key` (lines 89-97): length-prefixed blob, each byte
XORed with `0x64`, then AES-ECB/PKCS7-decrypted with `CORE_KEY`. -/
def read_aes_key (r : Reader) : PResult (List Nat × Reader) :=
  match read_le_u32 r with
  | .err e => .err e
  | .panicked => .panicked
  | .ok (key_len, r1) =>
    match read_exact key_len r1 with
    | .err e => .err e
    | .panicked => .panicked
    | .ok (key_data, r2) =>
      match aes_decrypt (key_data.map (fun b => b ^^^ 0x64)) CORE_KEY with
      | .error e => .err e
      | .ok k => .ok (k, r2)

/-- `NcmDecoder::read_metadata` (lines 99-118): length-prefixed blob (a zero
length means no metadata), each byte XORed with `0x63`; the slice
`&meta_data[22..]` panics when the blob is shorter than 22 bytes; the result
is base64-decoded and AES-decrypted with `MODIFY_KEY`; the slice
`&decrypt_data[6..]` panics when the decrypted blob is shorter than 6 bytes;
the remainder is parsed as JSON. -/
def read_metadata (ext : ExternalFns) (r : Reader) : PResult (Option Metadata × Reader) :=
  match read_le_u32 r with
  | .err e => .err e
  | .panicked => .panicked
  | .ok (meta_len, r1) =>
    if meta_len = 0 then .ok (none, r1)
    else
      match read_exact meta_len r1 with
      | .err e => .err e
      | .panicked => .panicked
      | .ok (meta_data0, r2) =>
        let meta_data := meta_data0.map (fun b => b ^^^ 0x63)
        if meta_data.length < 22 then .panicked
        else
          match base64_decode (meta_data.drop 22) with
          | .error e => .err e
          | .ok modify_data =>
            match aes_decrypt modify_data MODIFY_KEY with
            | .error e => .err e
            | .ok decrypt_data =>
              if decrypt_data.length < 6 then .panicked
              else
                match ext.jsonParse (decrypt_data.drop 6) with
                | .error e => .err e
                | .ok metadata => .ok (some metadata, r2)

/-- `ImageFileType::from_header_data` (lines 264-273).  `none` models an
aborting execution: the call-site slice `&image_data[0..8]` panics when fewer
than 8 bytes are available, and the wildcard arm is
`panic!("unknown image mime type")`. -/
def ImageFileType.from_header_data (header_data : List Nat) : Option ImageFileType :=
  if header_data.length < 8 then none
  else
    match header_data.take 8 with
    | [137, 80, 78, 71, 13, 10, 26, 10] => some .Png
    | [0xFF, 0xD8, 0xFF, 0xE0, _, _, _, _] => some .Jpeg
    | [71, 73, 70, _, _, _, _, _] => some .Gif
    | _ => none

/-- `NcmDecoder::read_image` (lines 120-133): length-prefixed raw bytes (a
zero length means no image); the format is detected from the first 8 bytes. -/
def read_image (r : Reader) : PResult (Option Image × Reader) :=
  match read_le_u32 r with
  | .err e => .err e
  | .panicked => .panicked
  | .ok (image_len, r1) =>
    if image_len = 0 then .ok (none, r1)
    else
      match read_exact image_len r1 with
      | .err e => .err e
      | .panicked => .panicked
      | .ok (image_data, r2) =>
        match ImageFileType.from_header_data image_data with
        | none => .panicked
        | some filetype => .ok (some ⟨filetype, image_data⟩, r2)

/-! ## Key box -/

/-- `init_key_box` (lines 212-220): the identity table `T[i] = i`. -/
def init_key_box : List Nat := List.range 256

/-- `<[u8]>::swap(i, j)` on a list. -/
def listSwap (l : List Nat) (i j : Nat) : List Nat :=
  (l.set i (l.getD j 0)).set j (l.getD i 0)

/-- The loop body of `build_key_box` (lines 227-235), iterated `fuel` times
with loop index `i`.  The `u8` sum wraps (release mode), modelled as `% 256`;
the source's `& 0xff` is the identity on a `u8`. -/
def build_key_box_go (key_data : List Nat) : Nat → List Nat → Nat → Nat → Nat → List Nat
  | 0, key_box, _, _, _ => key_box
  | fuel+1, key_box, last_byte, key_offset, i =>
    let c := (key_box.getD i 0 + last_byte + key_data.getD key_offset 0) % 256
    let key_offset' := if key_offset + 1 ≥ key_data.length then 0 else key_offset + 1
    build_key_box_go key_data fuel (listSwap key_box i c) c key_offset' (i + 1)

/-- `build_key_box` (lines 222-237).  `none` models the panic of
`key_data[key_offset]` on empty key material (the first loop iteration
indexes `key_data[0]`); on non-empty key material the offset stays in range
and the loop runs all 256 iterations. -/
def build_key_box (key_data : List Nat) : Option (List Nat) :=
  if key_data.isEmpty then none
  else some (build_key_box_go key_data 256 init_key_box 0 0 0)

/-! ## Audio decoding -/

/-- The loop body of `decode_audio` (lines 205-210) from byte index `i`:
bytes at indices below `read_size` are XORed with the keystream byte for
their index. -/
def decode_audio_go (key_box : List Nat) (read_size : Nat) : Nat → List Nat → List Nat
  | _, [] => []
  | i, b :: rest =>
    (if i < read_size then
      let j := (i + 1) &&& 0xff
      b ^^^ key_box.getD ((key_box.getD j 0 + key_box.getD ((key_box.getD j 0 + j) &&& 0xff) 0) &&& 0xff) 0
    else b) :: decode_audio_go key_box read_size (i + 1) rest

/-- `decode_audio(data, read_size, key_box)` (lines 205-210). -/
def decode_audio (data : List Nat) (read_size : Nat) (key_box : List Nat) : List Nat :=
  decode_audio_go key_box read_size 0 data

/-- `AudioFileType::from_header_data` (lines 250-262).  `none` models the
panic of the call-site slice `header_data[0..4]` on fewer than 4 bytes (the
single caller always passes 4 bytes). -/
def AudioFileType.from_header_data (header_data : List Nat) : Option AudioFileType :=
  if header_data.length < 4 then none
  else
    match header_data.take 4 with
    | [0x66, 0x4c, 0x61, 0x43] => some .Flac
    | [0x49, 0x44, 0x33, _] => some .Mp3
    | _ => some .Mp3

/-- The read loop of `read_audio` (lines 151-158): repeatedly read up to
`0x8000` bytes, decrypt them in place with a per-call position restart, and
append them to the output.  `fuel` bounds the number of iterations; call
sites pass the remaining length, which suffices since every iteration but the
last consumes `0x8000 > 0` bytes. -/
def read_audio_loop (key_box : List Nat) : Nat → List Nat → List Nat
  | 0, _ => []
  | _+1, [] => []
  | fuel+1, b :: rest =>
    let chunk := (b :: rest).take 0x8000
    decode_audio chunk chunk.length key_box ++ read_audio_loop key_box fuel ((b :: rest).drop 0x8000)

/-- `NcmDecoder::read_audio` (lines 135-164): the first 4 remaining bytes are
read, decrypted and classified (the cursor is then rewound by `skip(-4)`),
and the whole remaining payload is streamed through `decode_audio` in 32KB
chunks.  The `cur_offset`/`eof_offset` seeks only size a pre-allocation and
are folded away; the final cursor rests at end-of-input. -/
def read_audio (key_box : List Nat) (r : Reader) : PResult (Audio × Reader) :=
  match read_exact 4 r with
  | .err e => .err e
  | .panicked => .panicked
  | .ok (hdr, _) =>
    match AudioFileType.from_header_data (decode_audio hdr 4 key_box) with
    | none => .panicked
    | some filetype =>
      let payload := r.data.drop r.pos
      .ok (⟨filetype, read_audio_loop key_box payload.length payload⟩, ⟨r.data, r.data.length⟩)

/-! ## Tag rewriting -/

/-- `add_flac_metadata` (lines 285-312): a no-op when both image and metadata
are absent; otherwise the `metaflac` interaction, abstracted as
`ext.flacTagger`, replaces the audio bytes (or fails). -/
def add_flac_metadata (ext : ExternalFns) (audio : Audio) (image : Option Image)
    (metadata : Option Metadata) : PResult Audio :=
  if image.isNone ∧ metadata.isNone then .ok audio
  else
    match ext.flacTagger audio image metadata with
    | .error e => .err e
    | .ok d => .ok ⟨audio.format, d⟩

/-- `add_mp3_metadata` (lines 314-340): a no-op when both image and metadata
are absent; otherwise the `id3` interaction, abstracted as `ext.mp3Tagger`,
replaces the audio bytes (or fails). -/
def add_mp3_metadata (ext : ExternalFns) (audio : Audio) (image : Option Image)
    (metadata : Option Metadata) : PResult Audio :=
  if image.isNone ∧ metadata.isNone then .ok audio
  else
    match ext.mp3Tagger audio image metadata with
    | .error e => .err e
    | .ok d => .ok ⟨audio.format, d⟩

/-- `serde_json::to_string(&metadata)` on the `Option<Metadata>` held by
`dump` (line 75).  Modelled from serde_json's documented serialization:
`None` serializes as the JSON literal `null`; a present value delegates to
the abstracted serializer. -/
def metadata_to_json (ext : ExternalFns) : Option Metadata → Except String String
  | none => .ok "null"
  | some m => ext.jsonSer m

/-! ## The pipeline -/

/-- `NcmDecoder::dump` (lines 50-76).  The slice `&read_aes_key()?[17..]`
panics when the decrypted key blob is shorter than 17 bytes; `build_key_box`
panics (models as `none`) when it is exactly 17 bytes. -/
def NcmDecoder_dump (ext : ExternalFns) (input : List Nat) : PResult (List Nat × String × String) :=
  match check_format ⟨input, 0⟩ with
  | .err e => .err e
  | .panicked => .panicked
  | .ok (_, r1) =>
  match skip 2 r1 with
  | .err e => .err e
  | .panicked => .panicked
  | .ok (_, r2) =>
  match read_aes_key r2 with
  | .err e => .err e
  | .panicked => .panicked
  | .ok (key, r3) =>
  if key.length < 17 then .panicked
  else
  match build_key_box (key.drop 17) with
  | none => .panicked
  | some key_box =>
  match read_metadata ext r3 with
  | .err e => .err e
  | .panicked => .panicked
  | .ok (metadata, r4) =>
  match skip 9 r4 with
  | .err e => .err e
  | .panicked => .panicked
  | .ok (_, r5) =>
  match read_image r5 with
  | .err e => .err e
  | .panicked => .panicked
  | .ok (image, r6) =>
  match read_audio key_box r6 with
  | .err e => .err e
  | .panicked => .panicked
  | .ok (audio, _) =>
  let tagged : PResult Audio × String :=
    match audio.format with
    | .Flac => (add_flac_metadata ext audio image metadata, "flac")
    | .Mp3 => (add_mp3_metadata ext audio image metadata, "mp3")
  match tagged.1 with
  | .err e => .err e
  | .panicked => .panicked
  | .ok audio' =>
  match metadata_to_json ext metadata with
  | .error e => .err e
  | .ok mj => .ok (audio'.data, mj, tagged.2)

/-- `NcmDump::dump` (lines 31-37): wraps the pipeline result into a
`DumpOutput` with status `"ok"`, or an error message in the status field with
empty data, metadata and extension.  `none` models a panic crossing the
boundary (the `DumpOutput` is never produced). -/
def NcmDump_dump (ext : ExternalFns) (input : List Nat) : Option DumpOutput :=
  match NcmDecoder_dump ext input with
  | .ok (data, metadata, extension) => some (DumpOutput.new data metadata "ok" extension)
  | .err e => some (DumpOutput.new [] "" e "")
  | .panicked => none

/-! ## Reference (specification-side) definitions -/

/-- The reference key-scheduling algorithm exactly as the specification words
it: `c = (T[i] + last + keyMaterial[keyOffset]) mod 256`; advance `keyOffset`
wrapping to 0 when it reaches the key length; swap `T[i]` and `T[c]`; set
`last = c`. -/
def key_schedule_ref_go (keyMaterial : List Nat) : Nat → List Nat → Nat → Nat → Nat → List Nat
  | 0, t, _, _, _ => t
  | n+1, t, last, keyOffset, i =>
    let c := (t.getD i 0 + last + keyMaterial.getD keyOffset 0) % 256
    key_schedule_ref_go keyMaterial n (listSwap t i c) c ((keyOffset + 1) % keyMaterial.length) (i + 1)

/-- The reference key schedule: start from `T[i] = i`, `last = 0`,
`keyOffset = 0` and run 256 steps. -/
def key_schedule_ref (keyMaterial : List Nat) : List Nat :=
  key_schedule_ref_go keyMaterial 256 (List.range 256) 0 0 0

/-- The keystream byte for chunk-relative position `i`, as the specification
words it: `j = (i+1) & 0xFF`;
`table[(table[j] + table[(table[j] + j) & 0xFF]) & 0xFF]`. -/
def keystream_at (table : List Nat) (i : Nat) : Nat :=
  let j := (i + 1) &&& 0xff
  table.getD ((table.getD j 0 + table.getD ((table.getD j 0 + j) &&& 0xff) 0) &&& 0xff) 0

/-- Chunk decryption as the specification words it: for each byte index `i`
in `0..length`, XOR the byte at chunk-relative index `i` with the keystream
byte for `i`. -/
def decrypt_chunk_spec (table : List Nat) (chunk : List Nat) : List Nat :=
  (List.range chunk.length).map (fun i => chunk.getD i 0 ^^^ keystream_at table i)

/-- Splitting a payload into consecutive fixed 32768-byte chunks, the last
chunk possibly shorter. -/
def audio_chunks (payload : List Nat) : List (List Nat) :=
  if h : payload = [] then []
  else payload.take 32768 :: audio_chunks (payload.drop 32768)
termination_by payload.length
decreasing_by
  simp only [List.length_drop]
  exact Nat.sub_lt (List.length_pos.mpr h) (by norm_num)

/-- Whole-payload decryption as the specification words it: decrypt each
32768-byte chunk independently (the position index restarts at every chunk
boundary) and concatenate. -/
def audio_decrypt_spec (table : List Nat) (payload : List Nat) : List Nat :=
  ((audio_chunks payload).map (decrypt_chunk_spec table)).flatten

/-! ## Concrete inputs used by witnesses and counterexamples

The AES ciphertexts below were produced with the AES-128 forward cipher (the
exact inverse of `aes_decrypt_block`) under `CORE_KEY` / `MODIFY_KEY`; the
facts proved about them only rely on the decryption direction defined
above. -/

/-- A trivial instantiation of the abstracted external libraries; the
executions studied below never reach them. -/
def extConst : ExternalFns where
  jsonParse := fun _ => .error "json"
  jsonSer := fun _ => .error "json"
  flacTagger := fun _ _ _ => .error "tag"
  mp3Tagger := fun _ _ _ => .error "tag"

/-- Little-endian 32-bit encoding of a length field. -/
def le32 (n : Nat) : List Nat :=
  [n % 256, n / 256 % 256, n / 65536 % 256, n / 16777216 % 256]

/-- A 16-byte AES-ECB ciphertext that decrypts under `CORE_KEY` to the
2-byte blob `[1, 2]` (PKCS7 padding `14 × 14`), already XORed with `0x64` as
it would be stored in a file. -/
def key_blob_short : List Nat :=
  [248, 102, 108, 176, 237, 237, 172, 96, 225, 224, 167, 122, 87, 129, 251, 139]

/-- A 32-byte AES-ECB ciphertext that decrypts under `CORE_KEY` to the
18-byte blob `"neteasecloudmusic" ++ [0x6b]` (17 discarded prefix bytes plus
one byte of key material), already XORed with `0x64`. -/
def key_blob_good : List Nat :=
  [44, 206, 213, 235, 105, 234, 251, 20, 85, 13, 69, 191, 97, 221, 23, 29,
   231, 220, 235, 190, 46, 69, 34, 238, 61, 229, 165, 109, 244, 18, 3, 208]

/-- The decrypted good key blob: `"neteasecloudmusic"` ++ `[0x6b]`. -/
def key_plain_good : List Nat :=
  [0x6e, 0x65, 0x74, 0x65, 0x61, 0x73, 0x65, 0x63, 0x6c, 0x6f, 0x75, 0x64, 0x6d, 0x75, 0x73, 0x69,
   0x63, 0x6b]

/-- The base64 text (as bytes) of a 16-byte AES-ECB ciphertext that decrypts
under `MODIFY_KEY` to the 3-byte blob `[1, 2, 3]`, already XORed with `0x63`
as it would be stored in a metadata blob. -/
def meta_b64_short : List Nat :=
  [5, 23, 39, 37, 37, 8, 37, 27, 50, 10, 85, 17, 33, 15, 34, 9, 17, 80, 50, 58, 46, 20, 94, 94]

/-- Input whose key blob decrypts to only 2 bytes: header-valid, then
`dump` panics at the slice `&key[17..]`. -/
def input_short_key : List Nat :=
  MAGIC_HEADER ++ [0, 0] ++ le32 16 ++ key_blob_short

/-- Input with a good key blob and a metadata length field of 5 (nonzero but
below 22): `read_metadata` panics at the slice `&meta_data[22..]`. -/
def input_short_meta : List Nat :=
  MAGIC_HEADER ++ [0, 0] ++ le32 32 ++ key_blob_good ++ le32 5 ++ [0, 0, 0, 0, 0]

/-- Input with a good key blob and a 46-byte metadata blob (22 marker bytes
plus 24 base64 bytes) whose decrypted metadata is only 3 bytes long:
`read_metadata` panics at the slice `&decrypt_data[6..]`. -/
def input_short_decrypted_meta : List Nat :=
  MAGIC_HEADER ++ [0, 0] ++ le32 32 ++ key_blob_good ++ le32 46 ++
    List.replicate 22 0x63 ++ meta_b64_short

/-- Input with a good key blob, no metadata, and an 8-byte image blob whose
header matches none of PNG/JPEG/GIF: `from_header_data` hits
`panic!("unknown image mime type")`. -/
def input_bad_image : List Nat :=
  MAGIC_HEADER ++ [0, 0] ++ le32 32 ++ key_blob_good ++ le32 0 ++
    List.replicate 9 0 ++ le32 8 ++ List.replicate 8 0

/-- Input with a good key blob, no metadata, no image, and a 4-byte audio
payload that decrypts to `fLaC`: decodes successfully. -/
def input_good_flac : List Nat :=
  MAGIC_HEADER ++ [0, 0] ++ le32 32 ++ key_blob_good ++ le32 0 ++
    List.replicate 9 0 ++ le32 0 ++ [67, 63, 73, 28]

/-- The 16-byte ciphertext carried (base64- and XOR-encoded) inside
`input_short_decrypted_meta`; it decrypts under `MODIFY_KEY` to `[1, 2, 3]`. -/
def meta_ct_short : List Nat :=
  [126, 208, 197, 22, 65, 113, 66, 46, 171, 6, 80, 35, 175, 116, 24, 51]

/-- FIPS-197 appendix C.1: the AES-128 inverse cipher on the reference
ciphertext recovers the reference plaintext (sanity check of the AES model
and its tables). -/
example :
    aes_decrypt_blocks
        (aes_key_expansion [0, 1, 2, 3, 4, 5, 6, 7, 8, 9, 10, 11, 12, 13, 14, 15]) 16
        [0x69, 0xc4, 0xe0, 0xd8, 0x6a, 0x7b, 0x04, 0x30, 0xd8, 0xcd, 0xb7, 0x80, 0x70, 0xb4, 0xc5, 0x5a] =
      [0x00, 0x11, 0x22, 0x33, 0x44, 0x55, 0x66, 0x77, 0x88, 0x99, 0xaa, 0xbb, 0xcc, 0xdd, 0xee, 0xff] := by
  decide

/-! ## Helper lemmas -/

/-- Counting occurrences after a single `set`, in additive form. -/
theorem count_set_add : ∀ (l : List Nat) (i : Nat), i < l.length → ∀ (b a : Nat),
    (l.set i b).count a + (if l.getD i 0 = a then 1 else 0) =
      l.count a + (if b = a then 1 else 0) := by
  intro l
  induction l with
  | nil => intro i h; simp at h
  | cons x xs ih =>
    intro i hi b a
    cases i with
    | zero =>
      simp only [List.set_cons_zero, List.count_cons, List.getD_cons_zero, beq_iff_eq]
      split <;> split <;> omega
    | succ n =>
      have hn : n < xs.length := by simp at hi; omega
      have := ih n hn b a
      simp only [List.set_cons_succ, List.count_cons, List.getD_cons_succ, beq_iff_eq]
      split <;> omega

/-- `set` at one index leaves `getD` at another index unchanged. -/
theorem getD_set_ne (l : List Nat) (i j : Nat) (b : Nat) (hij : i ≠ j) :
    (l.set i b).getD j 0 = l.getD j 0 := by
  simp [List.getD_eq_getElem?_getD, List.getElem?_set_ne hij]

/-- `getD` at an in-range index just written by `set`. -/
theorem getD_set_self (l : List Nat) (i : Nat) (hi : i < l.length) (b : Nat) :
    (l.set i b).getD i 0 = b := by
  simp [List.getD_eq_getElem?_getD, List.getElem?_set_self, hi]

/-- Swapping two in-range entries of a list is a permutation. -/
theorem listSwap_perm (l : List Nat) (i j : Nat) (hi : i < l.length) (hj : j < l.length) :
    (listSwap l i j).Perm l := by
  rw [List.perm_iff_count]
  intro a
  have h1 := count_set_add l i hi (l.getD j 0) a
  have h2 := count_set_add (l.set i (l.getD j 0)) j (by simpa using hj) (l.getD i 0) a
  by_cases hij : i = j
  · subst hij
    rw [getD_set_self l i hi] at h2
    rw [listSwap]
    split_ifs at h1 h2 <;> omega
  · rw [getD_set_ne l i j _ hij] at h2
    rw [listSwap]
    split_ifs at h1 h2 <;> omega

/-- The source loop and the reference loop compute the same table as long as
the key offset is in range (the two offset-wrapping styles agree there). -/
theorem build_key_box_go_eq_ref (key : List Nat) (hkey : key ≠ []) :
    ∀ (n : Nat) (kb : List Nat) (last off i : Nat), off < key.length →
      build_key_box_go key n kb last off i = key_schedule_ref_go key n kb last off i := by
  intro n
  induction n with
  | zero => intro kb last off i _; rfl
  | succ m ih =>
    intro kb last off i hoff
    have hlen : 0 < key.length := List.length_pos.mpr hkey
    simp only [build_key_box_go, key_schedule_ref_go]
    have hadv : (if off + 1 ≥ key.length then 0 else off + 1) = (off + 1) % key.length := by
      split
      · have : off + 1 = key.length := by omega
        rw [this, Nat.mod_self]
      · rw [Nat.mod_eq_of_lt (by omega)]
    rw [hadv]
    exact ih _ _ _ _ (Nat.mod_lt _ hlen)

/-- The source loop preserves being a permutation of `0..255`. -/
theorem build_key_box_go_perm (key : List Nat) :
    ∀ (n : Nat) (kb : List Nat) (last off i : Nat), i + n ≤ 256 →
      kb.Perm (List.range 256) →
      (build_key_box_go key n kb last off i).Perm (List.range 256) := by
  intro n
  induction n with
  | zero => intro kb last off i _ h; exact h
  | succ m ih =>
    intro kb last off i hn hperm
    have hlen : kb.length = 256 := by
      have := hperm.length_eq
      simpa using this
    simp only [build_key_box_go]
    refine ih _ _ _ _ (by omega) ?_
    exact (listSwap_perm kb i _ (by omega) (by rw [hlen]; exact Nat.mod_lt _ (by norm_num))).trans
      hperm

/-- The in-place XOR loop as a map over positions, while the position stays
below `read_size`. -/
theorem decode_audio_go_eq_map (kb : List Nat) (rs : Nat) :
    ∀ (l : List Nat) (i : Nat), i + l.length ≤ rs →
      decode_audio_go kb rs i l =
        (List.range l.length).map (fun k => l.getD k 0 ^^^ keystream_at kb (i + k)) := by
  intro l
  induction l with
  | nil => intro i _; simp [decode_audio_go]
  | cons b rest ih =>
    intro i hle
    have hi : i < rs := by simp only [List.length_cons] at hle; omega
    rw [List.length_cons, List.range_succ_eq_map, List.map_cons, List.map_map]
    simp only [decode_audio_go, if_pos hi]
    refine congrArg₂ List.cons ?_ ?_
    · simp only [List.getD_cons_zero, Nat.add_zero, keystream_at]
    · rw [ih (i + 1) (by simp only [List.length_cons] at hle; omega)]
      refine List.map_congr_left ?_
      intro k _
      simp only [Function.comp_apply, List.getD_cons_succ]
      have : i + (k + 1) = i + 1 + k := by omega
      rw [this]

/-- The in-place XOR loop is an involution (each position is XORed with the
same keystream byte both times). -/
theorem decode_audio_go_invol (kb : List Nat) (rs : Nat) :
    ∀ (l : List Nat) (i : Nat), decode_audio_go kb rs i (decode_audio_go kb rs i l) = l := by
  intro l
  induction l with
  | nil => intro i; rfl
  | cons b rest ih =>
    intro i
    by_cases h : i < rs
    · simp only [decode_audio_go, if_pos h, List.cons.injEq]
      exact ⟨Nat.xor_cancel_right _ _, ih (i + 1)⟩
    · simp only [decode_audio_go, if_neg h, List.cons.injEq]
      exact ⟨trivial, ih (i + 1)⟩

/-- `decode_audio` over a whole chunk agrees with the specification's
chunk-decryption formula. -/
theorem decode_audio_chunk_spec (kb : List Nat) (chunk : List Nat) :
    decode_audio chunk chunk.length kb = decrypt_chunk_spec kb chunk := by
  rw [decode_audio, decrypt_chunk_spec, decode_audio_go_eq_map kb chunk.length chunk 0 (by omega)]
  simp

/-- With enough fuel, the source's 32KB read loop equals the specification's
split-into-chunks description. -/
theorem read_audio_loop_eq_spec (kb : List Nat) :
    ∀ (fuel : Nat) (payload : List Nat), payload.length ≤ fuel →
      read_audio_loop kb fuel payload = audio_decrypt_spec kb payload := by
  intro fuel
  induction fuel with
  | zero =>
    intro payload h
    have hnil : payload = [] := List.eq_nil_of_length_eq_zero (by omega)
    subst hnil
    rw [read_audio_loop, audio_decrypt_spec, audio_chunks]
    simp
  | succ m ih =>
    intro payload h
    match payload with
    | [] =>
      rw [read_audio_loop, audio_decrypt_spec, audio_chunks]
      simp
    | b :: rest =>
      simp only [read_audio_loop, audio_decrypt_spec]
      rw [audio_chunks, dif_neg (List.cons_ne_nil b rest), List.map_cons, List.flatten_cons]
      congr 1
      · exact decode_audio_chunk_spec kb _
      · rw [ih ((b :: rest).drop 0x8000)
          (by simp only [List.length_drop, List.length_cons] at h ⊢; omega)]
        rfl

/-- Extracting the length guarantee of a successful `read_exact`. -/
theorem read_exact_length {n : Nat} {r : Reader} {bs : List Nat} {r' : Reader}
    (h : read_exact n r = .ok (bs, r')) : bs.length = n := by
  simp only [read_exact] at h
  split at h
  · rename_i hc
    rw [PResult.ok.injEq, Prod.mk.injEq] at h
    rw [← h.1]
    exact hc
  · exact absurd h (by simp)

/-! ## The claims -/

/-- Claim C1: for every non-empty key material, `build_key_box` returns
exactly the 256-byte table produced by the reference key-scheduling
algorithm (`key_schedule_ref`, written from the specification's wording). -/
theorem build_key_box_matches_reference (key : List Nat) (hkey : key ≠ []) :
    build_key_box key = some (key_schedule_ref key) := by
  rw [build_key_box, if_neg (fun h => hkey (List.isEmpty_iff.mp h)), key_schedule_ref]
  rw [build_key_box_go_eq_ref key hkey 256 _ 0 0 0 (List.length_pos.mpr hkey)]
  rfl

/-- Witness for C1 at the concrete key material `[1, 2, 3]`. -/
theorem build_key_box_matches_reference_witness :
    ([1, 2, 3] : List Nat) ≠ [] ∧ build_key_box [1, 2, 3] = some (key_schedule_ref [1, 2, 3]) :=
  ⟨by decide, build_key_box_matches_reference [1, 2, 3] (by decide)⟩

/-- Claim C2: the audio payload decryption performed by `read_audio` equals
splitting the remaining payload into consecutive fixed 32768-byte chunks
(the last possibly shorter) and XORing each chunk independently with the
position-restarting keystream (`audio_decrypt_spec`, written from the
specification's wording). -/
theorem read_audio_decrypts_in_chunks (kb : List Nat) (r : Reader) (a : Audio) (r' : Reader)
    (h : read_audio kb r = .ok (a, r')) :
    a.data = audio_decrypt_spec kb (r.data.drop r.pos) := by
  simp only [read_audio] at h
  split at h
  · exact absurd h (by simp)
  · exact absurd h (by simp)
  · split at h
    · exact absurd h (by simp)
    · rw [PResult.ok.injEq, Prod.mk.injEq] at h
      obtain ⟨ha, -⟩ := h
      rw [← ha]
      exact read_audio_loop_eq_spec kb _ _ (Nat.le_refl _)

/-- Witness for C2 at a concrete 5-byte payload and the identity table. -/
theorem read_audio_decrypts_in_chunks_witness :
    read_audio (List.range 256) ⟨[1, 2, 3, 4, 5], 0⟩ =
        .ok (⟨AudioFileType.Mp3, [2, 4, 10, 8, 10]⟩, ⟨[1, 2, 3, 4, 5], 5⟩) ∧
      (⟨AudioFileType.Mp3, [2, 4, 10, 8, 10]⟩ : Audio).data =
        audio_decrypt_spec (List.range 256)
          ((⟨[1, 2, 3, 4, 5], 0⟩ : Reader).data.drop (⟨[1, 2, 3, 4, 5], 0⟩ : Reader).pos) := by
  have h : read_audio (List.range 256) ⟨[1, 2, 3, 4, 5], 0⟩ =
      .ok (⟨AudioFileType.Mp3, [2, 4, 10, 8, 10]⟩, ⟨[1, 2, 3, 4, 5], 5⟩) := by decide
  exact ⟨h, read_audio_decrypts_in_chunks (List.range 256) ⟨[1, 2, 3, 4, 5], 0⟩ _ _ h⟩

/-- Claim C3: chunk decryption with the same table is an involution:
`decode_audio (decode_audio x n T) n T = x` for `n` within the buffer and a
256-byte table. -/
theorem decode_audio_involutive (x : List Nat) (n : Nat) (T : List Nat)
    (hn : n ≤ x.length) (hT : T.length = 256) :
    decode_audio (decode_audio x n T) n T = x :=
  decode_audio_go_invol T n x 0

/-- Witness for C3 at the concrete buffer `[5, 7]` and the identity table. -/
theorem decode_audio_involutive_witness :
    2 ≤ ([5, 7] : List Nat).length ∧ (List.range 256).length = 256 ∧
      decode_audio (decode_audio [5, 7] 2 (List.range 256)) 2 (List.range 256) = [5, 7] :=
  ⟨by decide, by simp, decode_audio_involutive [5, 7] 2 (List.range 256) (by decide) (by simp)⟩

/-- Counterexample to claim C4 as stated: on `input_bad_image` — an input
whose image blob is present with an 8-byte header matching none of
PNG/JPEG/GIF — the decode call panics (`ImageFileType::from_header_data`
hits `panic!("unknown image mime type")`), so no result object carrying a
status string is ever produced, contradicting "for every input buffer, a
full decode call returns a well-formed result object and never aborts". -/
theorem dump_unknown_image_aborts : NcmDump_dump extConst input_bad_image = none := by decide

/-- Claim C4 as amended: failures returned as `Result::Err` are reported as
a message string in the result's status field, but an image blob whose
8-byte header matches none of PNG, JPEG, or GIF makes the decode call panic
(abort) instead of returning a result object. -/
theorem dump_reports_errors_in_status_amended :
    (∀ (ext : ExternalFns) (input : List Nat) (e : String),
        NcmDecoder_dump ext input = .err e →
          NcmDump_dump ext input = some (DumpOutput.new [] "" e "")) ∧
      NcmDump_dump extConst input_bad_image = none := by
  constructor
  · intro ext input e h
    rw [NcmDump_dump, h]
  · decide

/-- Witness for the amended C4 at the empty input (an `Err` failure). -/
theorem dump_reports_errors_in_status_amended_witness :
    NcmDecoder_dump extConst [] = .err "This file is not in ncm format" ∧
      NcmDump_dump extConst [] =
        some (DumpOutput.new [] "" "This file is not in ncm format" "") := by
  have h : NcmDecoder_dump extConst [] = .err "This file is not in ncm format" := by decide
  exact ⟨h, dump_reports_errors_in_status_amended.1 extConst [] _ h⟩

/-- Claim C5: for every input shorter than 8 bytes, and for every input
whose first 8 bytes differ from `CTENFDAM`, decode fails with the
not-NCM-format error and the returned result has empty audio bytes, empty
metadata string and empty extension string. -/
theorem dump_not_ncm_format (ext : ExternalFns) (input : List Nat)
    (hbad : input.length < 8 ∨ input.take 8 ≠ MAGIC_HEADER) :
    NcmDump_dump ext input = some (DumpOutput.new [] "" "This file is not in ncm format" "") := by
  have hcond : (readBytes 8 ⟨input, 0⟩).1.length ≠ 8 ∨
      (readBytes 8 ⟨input, 0⟩).1 ++ List.replicate (8 - (readBytes 8 ⟨input, 0⟩).1.length) 0 ≠
        MAGIC_HEADER := by
    simp only [readBytes, List.drop_zero, List.length_take]
    rcases hbad with hlen | hmag
    · left; omega
    · by_cases hlen : input.length < 8
      · left; omega
      · right
        have h8 : min 8 input.length = 8 := by omega
        rw [h8]
        simpa using hmag
  rw [NcmDump_dump, NcmDecoder_dump, check_format]
  rw [if_pos hcond]

/-- Witness for C5 at the concrete 3-byte input `[0, 1, 2]`. -/
theorem dump_not_ncm_format_witness :
    (([0, 1, 2] : List Nat).length < 8 ∨ ([0, 1, 2] : List Nat).take 8 ≠ MAGIC_HEADER) ∧
      NcmDump_dump extConst [0, 1, 2] =
        some (DumpOutput.new [] "" "This file is not in ncm format" "") :=
  ⟨Or.inl (by decide), dump_not_ncm_format extConst [0, 1, 2] (Or.inl (by decide))⟩

/-- Claim C6: audio format detection on a 4-byte decrypted header is total:
exactly the header `66 4C 61 43` is classified FLAC and every other header
(including `49 44 33` + any byte) is classified MP3; detection never
fails. -/
theorem audio_format_detection_total (h : List Nat) (hlen : h.length = 4) :
    AudioFileType.from_header_data h =
      some (if h = [0x66, 0x4c, 0x61, 0x43] then AudioFileType.Flac else AudioFileType.Mp3) := by
  match h, hlen with
  | [a, b, c, d], _ =>
    rw [AudioFileType.from_header_data]
    rw [if_neg (by simp)]
    simp only [List.take_succ_cons, List.take_nil]
    split
    · rename_i heq
      rw [if_pos heq]
    · rename_i x heq
      rw [if_neg (by rw [heq]; simp)]
    · rename_i hne1 hne2
      rw [if_neg (fun hc => hne1 (by rw [hc]))]

/-- Witness for C6 at the concrete ID3 header `49 44 33 00`. -/
theorem audio_format_detection_total_witness :
    ([0x49, 0x44, 0x33, 0] : List Nat).length = 4 ∧
      AudioFileType.from_header_data [0x49, 0x44, 0x33, 0] =
        some (if ([0x49, 0x44, 0x33, 0] : List Nat) = [0x66, 0x4c, 0x61, 0x43] then
            AudioFileType.Flac
          else AudioFileType.Mp3) :=
  ⟨by decide, audio_format_detection_total [0x49, 0x44, 0x33, 0] (by decide)⟩

/-- Counterexample to claim C7 as stated: `input_good_flac` decodes
successfully with a zero metadata length field, yet the metadata string in
the returned result is `"null"` (serde's serialization of the absent
`Option`), not the empty string. -/
theorem dump_absent_metadata_not_empty_string :
    NcmDump_dump extConst input_good_flac =
        some (DumpOutput.new [0x66, 0x4c, 0x61, 0x43] "null" "ok" "flac") ∧
      ("null" : String) ≠ "" := by
  exact ⟨by decide, by decide⟩

/-- Claim C7 as amended: for every input that decodes successfully and
whose metadata length field is zero (`read_metadata` returns the absent
metadata), the metadata string in the returned result is `"null"` — the
JSON serialization of the absent value, not the empty string — and the
status field is `"ok"`. -/
theorem dump_absent_metadata_serializes_null (ext : ExternalFns) (input : List Nat)
    (r1 r2 r3 r4 : Reader) (p : Nat) (key : List Nat) (d : List Nat) (m e : String)
    (h1 : check_format ⟨input, 0⟩ = .ok ((), r1))
    (h2 : skip 2 r1 = .ok (p, r2))
    (h3 : read_aes_key r2 = .ok (key, r3))
    (h4 : read_metadata ext r3 = .ok (none, r4))
    (h5 : NcmDecoder_dump ext input = .ok (d, m, e)) :
    m = "null" ∧ NcmDump_dump ext input = some (DumpOutput.new d "null" "ok" e) := by
  have hm : m = "null" := by
    simp only [NcmDecoder_dump, h1, h2, h3, h4] at h5
    split at h5
    · exact absurd h5 (by simp)
    · split at h5
      · exact absurd h5 (by simp)
      · split at h5
        · exact absurd h5 (by simp)
        · exact absurd h5 (by simp)
        · split at h5
          · exact absurd h5 (by simp)
          · exact absurd h5 (by simp)
          · split at h5
            · exact absurd h5 (by simp)
            · exact absurd h5 (by simp)
            · split at h5
              · exact absurd h5 (by simp)
              · exact absurd h5 (by simp)
              · simp only [metadata_to_json, PResult.ok.injEq, Prod.mk.injEq] at h5
                exact (h5.2.1).symm
  refine ⟨hm, ?_⟩
  rw [NcmDump_dump, h5, hm]

/-- Witness for the amended C7 at the concrete input `input_good_flac`. -/
theorem dump_absent_metadata_serializes_null_witness :
    check_format ⟨input_good_flac, 0⟩ = .ok ((), ⟨input_good_flac, 8⟩) ∧
      skip 2 ⟨input_good_flac, 8⟩ = .ok (10, ⟨input_good_flac, 10⟩) ∧
      read_aes_key ⟨input_good_flac, 10⟩ = .ok (key_plain_good, ⟨input_good_flac, 46⟩) ∧
      read_metadata extConst ⟨input_good_flac, 46⟩ = .ok (none, ⟨input_good_flac, 50⟩) ∧
      NcmDecoder_dump extConst input_good_flac = .ok ([0x66, 0x4c, 0x61, 0x43], "null", "flac") ∧
      ("null" : String) = "null" ∧
      NcmDump_dump extConst input_good_flac =
        some (DumpOutput.new [0x66, 0x4c, 0x61, 0x43] "null" "ok" "flac") := by
  have h1 : check_format ⟨input_good_flac, 0⟩ = .ok ((), ⟨input_good_flac, 8⟩) := by decide
  have h2 : skip 2 (⟨input_good_flac, 8⟩ : Reader) = .ok (10, ⟨input_good_flac, 10⟩) := by decide
  have h3 : read_aes_key ⟨input_good_flac, 10⟩ =
      .ok (key_plain_good, ⟨input_good_flac, 46⟩) := by decide
  have h4 : read_metadata extConst ⟨input_good_flac, 46⟩ =
      .ok (none, ⟨input_good_flac, 50⟩) := by decide
  have h5 : NcmDecoder_dump extConst input_good_flac =
      .ok ([0x66, 0x4c, 0x61, 0x43], "null", "flac") := by decide
  exact ⟨h1, h2, h3, h4, h5,
    dump_absent_metadata_serializes_null extConst input_good_flac _ _ _ _ 10 key_plain_good
      _ _ _ h1 h2 h3 h4 h5⟩

/-- Claim C8: for every non-empty key material, the 256-byte table returned
by `build_key_box` is a permutation of the values `0..255`.  (In this pure
embedding the table is passed immutably to `decode_audio`, so it is not
modified after construction.) -/
theorem build_key_box_is_permutation (key : List Nat) (hkey : key ≠ []) :
    ∃ t, build_key_box key = some t ∧ t.Perm (List.range 256) := by
  refine ⟨build_key_box_go key 256 init_key_box 0 0 0, ?_, ?_⟩
  · rw [build_key_box, if_neg (fun h => hkey (List.isEmpty_iff.mp h))]
  · exact build_key_box_go_perm key 256 init_key_box 0 0 0 (by omega) (by rw [init_key_box])

/-- Witness for C8 at the concrete key material `[9, 8]`. -/
theorem build_key_box_is_permutation_witness :
    ([9, 8] : List Nat) ≠ [] ∧
      ∃ t, build_key_box [9, 8] = some t ∧ t.Perm (List.range 256) :=
  ⟨by decide, build_key_box_is_permutation [9, 8] (by decide)⟩

/-- Claim C9: with both image and metadata absent, the FLAC tagging
operation and the ID3 tagging operation each succeed and leave the audio
byte-for-byte unchanged, for any behaviour of the external tag-writing
libraries. -/
theorem add_metadata_noop_when_absent (ext : ExternalFns) (audio : Audio) :
    add_flac_metadata ext audio none none = .ok audio ∧
      add_mp3_metadata ext audio none none = .ok audio := by
  constructor <;> simp [add_flac_metadata, add_mp3_metadata]

/-- Claim C10: inputs that pass header validation can make the decode call
panic instead of returning a result: (a) a decrypted key blob of 17 bytes or
fewer (the slice `&key[17..]` or the `key_data[0]` index in `build_key_box`
is out of range); (b) a nonzero metadata length field below 22 (the slice
`&meta_data[22..]` is out of range); (c) a decrypted metadata blob shorter
than 6 bytes (the slice `&decrypt_data[6..]` is out of range). -/
theorem dump_panics_on_short_key_or_metadata :
    (∀ (ext : ExternalFns) (input : List Nat) (r1 r2 r3 : Reader) (p : Nat) (key : List Nat),
        check_format ⟨input, 0⟩ = .ok ((), r1) →
        skip 2 r1 = .ok (p, r2) →
        read_aes_key r2 = .ok (key, r3) →
        key.length ≤ 17 →
        NcmDecoder_dump ext input = .panicked) ∧
    (∀ (ext : ExternalFns) (input : List Nat) (r1 r2 r3 r4 r5 : Reader) (p : Nat)
        (key : List Nat) (L : Nat) (meta : List Nat),
        check_format ⟨input, 0⟩ = .ok ((), r1) →
        skip 2 r1 = .ok (p, r2) →
        read_aes_key r2 = .ok (key, r3) →
        ¬ key.length < 17 →
        (build_key_box (key.drop 17)).isSome →
        read_le_u32 r3 = .ok (L, r4) →
        0 < L → L < 22 →
        read_exact L r4 = .ok (meta, r5) →
        NcmDecoder_dump ext input = .panicked) ∧
    (∀ (ext : ExternalFns) (input : List Nat) (r1 r2 r3 r4 r5 : Reader) (p : Nat)
        (key : List Nat) (L : Nat) (meta md dd : List Nat),
        check_format ⟨input, 0⟩ = .ok ((), r1) →
        skip 2 r1 = .ok (p, r2) →
        read_aes_key r2 = .ok (key, r3) →
        ¬ key.length < 17 →
        (build_key_box (key.drop 17)).isSome →
        read_le_u32 r3 = .ok (L, r4) →
        0 < L → 22 ≤ L →
        read_exact L r4 = .ok (meta, r5) →
        base64_decode ((meta.map (fun b => b ^^^ 0x63)).drop 22) = .ok md →
        aes_decrypt md MODIFY_KEY = .ok dd →
        dd.length < 6 →
        NcmDecoder_dump ext input = .panicked) := by
  refine ⟨?_, ?_, ?_⟩
  · intro ext input r1 r2 r3 p key h1 h2 h3 hk
    simp only [NcmDecoder_dump, h1, h2, h3]
    by_cases hk17 : key.length < 17
    · rw [if_pos hk17]
    · have hdrop : key.drop 17 = [] := List.drop_eq_nil_of_le (by omega)
      rw [if_neg hk17, hdrop]
      rfl
  · intro ext input r1 r2 r3 r4 r5 p key L meta h1 h2 h3 hk hbox hmlen hL1 hL2 hre
    have hmeta : read_metadata ext r3 = .panicked := by
      have hml : meta.length = L := read_exact_length hre
      simp only [read_metadata, hmlen, if_neg (by omega : ¬ L = 0), hre]
      rw [if_pos (by simp [hml]; omega)]
    obtain ⟨kb, hkb⟩ := Option.isSome_iff_exists.mp hbox
    simp only [NcmDecoder_dump, h1, h2, h3, if_neg hk, hkb, hmeta]
  · intro ext input r1 r2 r3 r4 r5 p key L meta md dd h1 h2 h3 hk hbox hmlen hL1 hL2 hre hb64
      haes hdd
    have hmeta : read_metadata ext r3 = .panicked := by
      have hml : meta.length = L := read_exact_length hre
      have h22 : ¬ (meta.map (fun b => b ^^^ 0x63)).length < 22 := by simp [hml]; omega
      simp only [read_metadata, hmlen, hre, if_neg (by omega : ¬ L = 0), if_neg h22, hb64, haes,
        if_pos hdd]
    obtain ⟨kb, hkb⟩ := Option.isSome_iff_exists.mp hbox
    simp only [NcmDecoder_dump, h1, h2, h3, if_neg hk, hkb, hmeta]

/-- Witness for C10: three concrete header-valid inputs on which the decode
call panics — a key blob decrypting to 2 bytes, a metadata length field of
5, and a metadata blob whose decrypted form is 3 bytes long. -/
theorem dump_panics_on_short_key_or_metadata_witness :
    NcmDecoder_dump extConst input_short_key = .panicked ∧
      NcmDecoder_dump extConst input_short_meta = .panicked ∧
      NcmDecoder_dump extConst input_short_decrypted_meta = .panicked := by
  refine ⟨?_, ?_, ?_⟩
  · exact dump_panics_on_short_key_or_metadata.1 extConst input_short_key
      ⟨input_short_key, 8⟩ ⟨input_short_key, 10⟩ ⟨input_short_key, 30⟩ 10 [1, 2]
      (by decide) (by decide) (by decide) (by decide)
  · exact dump_panics_on_short_key_or_metadata.2.1 extConst input_short_meta
      ⟨input_short_meta, 8⟩ ⟨input_short_meta, 10⟩ ⟨input_short_meta, 46⟩
      ⟨input_short_meta, 50⟩ ⟨input_short_meta, 55⟩ 10 key_plain_good 5 [0, 0, 0, 0, 0]
      (by decide) (by decide) (by decide) (by decide) (by decide) (by decide) (by decide)
      (by decide) (by decide)
  · exact dump_panics_on_short_key_or_metadata.2.2 extConst input_short_decrypted_meta
      ⟨input_short_decrypted_meta, 8⟩ ⟨input_short_decrypted_meta, 10⟩
      ⟨input_short_decrypted_meta, 46⟩ ⟨input_short_decrypted_meta, 50⟩
      ⟨input_short_decrypted_meta, 96⟩ 10 key_plain_good 46
      (List.replicate 22 0x63 ++ meta_b64_short) meta_ct_short [1, 2, 3]
      (by decide) (by decide) (by decide) (by decide) (by decide) (by decide) (by decide)
      (by decide) (by decide) (by decide) (by decide) (by decide)
